import Mathlib

/-!
Verification of the LegalDocAI repository against its natural-language
specification.  The data model is embedded from src/database/init.sql,
the frontend state containers and HTTP client from the TypeScript
sources, and the backend orchestrator and extractor (whose Python code
is not in the repository snapshot) are modelled from the specification
text where a claim needs them.
-/

namespace LegalDocAI

/-! ## Relational schema, from src/database/init.sql -/

/-- Row of the users table (init.sql lines 8-24); columns not touched by
any claim are omitted. -/
structure UserRow where
  id : Nat
  email : String
  full_name : String
  is_active : Bool
  documents_processed : Nat
  api_calls_count : Nat
  deriving Repr, DecidableEq

/-- Row of the documents table (init.sql lines 27-51); user_id carries
REFERENCES users(id) ON DELETE CASCADE. -/
structure DocumentRow where
  id : Nat
  user_id : Nat
  filename : String
  file_size : Nat
  mime_type : String
  extracted_text : Option String
  page_count : Option Nat
  word_count : Option Nat
  status : String
  error_message : Option String
  created_at : Nat
  updated_at : Nat
  deriving Repr, DecidableEq

/-- Row of the analyses table (init.sql lines 54-86); user_id and
document_id both carry ON DELETE CASCADE, and user_rating carries
CHECK (user_rating >= 1 AND user_rating <= 5). -/
structure AnalysisRow where
  id : Nat
  user_id : Nat
  document_id : Nat
  analysis_type : String
  model_used : String
  summary : Option String
  confidence_score : Option Int
  status : String
  user_rating : Option Int
  user_feedback : Option String
  created_at : Nat
  updated_at : Nat
  completed_at : Option Nat
  deriving Repr, DecidableEq

/-- The persistent store: the three owner-scoped tables of init.sql
(legal_templates is read-only and referenced by no foreign key). -/
structure DB where
  users : List UserRow
  documents : List DocumentRow
  analyses : List AnalysisRow
  deriving Repr, DecidableEq

/-- Column default of documents.status (init.sql line 39). -/
def documentsStatusDefault : String := "uploaded"

/-- Column default of analyses.status (init.sql line 78). -/
def analysesStatusDefault : String := "pending"

/-- Referential integrity of the schema: every documents.user_id names an
existing users row, and every analyses.user_id / analyses.document_id
name existing users and documents rows. -/
def refIntegrity (db : DB) : Prop :=
  (∀ d ∈ db.documents, ∃ u ∈ db.users, u.id = d.user_id) ∧
  (∀ a ∈ db.analyses, (∃ u ∈ db.users, u.id = a.user_id) ∧
    (∃ d ∈ db.documents, d.id = a.document_id))

instance (db : DB) : Decidable (refIntegrity db) := by
  unfold refIntegrity; infer_instance

/-- DELETE FROM users WHERE id = uid, with the ON DELETE CASCADE
semantics of init.sql: the user's documents rows are deleted, and an
analyses row is deleted when its user_id names the user or its
document_id names one of the deleted documents rows. -/
def deleteUserCascade (db : DB) (uid : Nat) : DB :=
  { users := db.users.filter (fun u => u.id ≠ uid)
    documents := db.documents.filter (fun d => d.user_id ≠ uid)
    analyses := db.analyses.filter (fun a =>
      a.user_id ≠ uid ∧
      ¬ ∃ d ∈ db.documents, d.id = a.document_id ∧ d.user_id = uid) }

/-- DELETE FROM documents WHERE id = did, with ON DELETE CASCADE on
analyses.document_id (init.sql line 57). -/
def deleteDocumentCascade (db : DB) (did : Nat) : DB :=
  { users := db.users
    documents := db.documents.filter (fun d => d.id ≠ did)
    analyses := db.analyses.filter (fun a => a.document_id ≠ did) }

theorem deleteUserCascade_users_mem (db : DB) (uid : Nat) (u : UserRow) :
    u ∈ (deleteUserCascade db uid).users ↔ u ∈ db.users ∧ u.id ≠ uid := by
  simp [deleteUserCascade, List.mem_filter]

theorem deleteUserCascade_documents_mem (db : DB) (uid : Nat) (d : DocumentRow) :
    d ∈ (deleteUserCascade db uid).documents ↔ d ∈ db.documents ∧ d.user_id ≠ uid := by
  simp [deleteUserCascade, List.mem_filter]

theorem deleteUserCascade_analyses_mem (db : DB) (uid : Nat) (a : AnalysisRow) :
    a ∈ (deleteUserCascade db uid).analyses ↔
      a ∈ db.analyses ∧ a.user_id ≠ uid ∧
      ¬ ∃ d ∈ db.documents, d.id = a.document_id ∧ d.user_id = uid := by
  simp [deleteUserCascade, List.mem_filter]

theorem deleteDocumentCascade_analyses_mem (db : DB) (did : Nat) (a : AnalysisRow) :
    a ∈ (deleteDocumentCascade db did).analyses ↔
      a ∈ db.analyses ∧ a.document_id ≠ did := by
  simp [deleteDocumentCascade, List.mem_filter]

/-- C1: deleting a users row removes every documents row it owns and every
analyses row referencing it directly or through one of its documents;
deleting a documents row removes every analyses row referencing it; and
both cascades preserve referential integrity, so no orphan rows remain. -/
theorem cascade_delete_no_orphans (db : DB) (uid did : Nat)
    (h : refIntegrity db) :
    refIntegrity (deleteUserCascade db uid) ∧
    (∀ d ∈ (deleteUserCascade db uid).documents, d.user_id ≠ uid) ∧
    (∀ a ∈ (deleteUserCascade db uid).analyses, a.user_id ≠ uid ∧
      ∀ d ∈ db.documents, d.user_id = uid → a.document_id ≠ d.id) ∧
    refIntegrity (deleteDocumentCascade db did) ∧
    (∀ d2 ∈ (deleteDocumentCascade db did).documents, d2.id ≠ did) ∧
    (∀ a ∈ (deleteDocumentCascade db did).analyses, a.document_id ≠ did) := by
  obtain ⟨hdoc, hana⟩ := h
  refine ⟨⟨?_, ?_⟩, ?_, ?_, ⟨?_, ?_⟩, ?_, ?_⟩
  · intro d hd
    rw [deleteUserCascade_documents_mem] at hd
    obtain ⟨hdmem, hdne⟩ := hd
    obtain ⟨u, hu, huid⟩ := hdoc d hdmem
    exact ⟨u, (deleteUserCascade_users_mem db uid u).2 ⟨hu, by omega⟩, huid⟩
  · intro a ha
    rw [deleteUserCascade_analyses_mem] at ha
    obtain ⟨hamem, hane, hnodoc⟩ := ha
    obtain ⟨⟨u, hu, huid⟩, ⟨d, hd, hdid⟩⟩ := hana a hamem
    refine ⟨⟨u, (deleteUserCascade_users_mem db uid u).2 ⟨hu, by omega⟩, huid⟩,
      ⟨d, (deleteUserCascade_documents_mem db uid d).2 ⟨hd, ?_⟩, hdid⟩⟩
    intro hdu
    exact hnodoc ⟨d, hd, hdid, hdu⟩
  · intro d hd
    exact ((deleteUserCascade_documents_mem db uid d).1 hd).2
  · intro a ha
    rw [deleteUserCascade_analyses_mem] at ha
    obtain ⟨hamem, hane, hnodoc⟩ := ha
    refine ⟨hane, ?_⟩
    intro d hd hdu heq
    exact hnodoc ⟨d, hd, heq.symm, hdu⟩
  · intro d hd
    rw [deleteDocumentCascade] at hd
    simp only [List.mem_filter] at hd
    exact hdoc d hd.1
  · intro a ha
    rw [deleteDocumentCascade_analyses_mem] at ha
    obtain ⟨hamem, hane⟩ := ha
    obtain ⟨⟨u, hu, huid⟩, ⟨d, hd, hdid⟩⟩ := hana a hamem
    refine ⟨⟨u, hu, huid⟩, ⟨d, ?_, hdid⟩⟩
    simp only [deleteDocumentCascade, List.mem_filter, decide_eq_true_eq]
    exact ⟨hd, by omega⟩
  · intro d hd
    simp only [deleteDocumentCascade, List.mem_filter, decide_eq_true_eq] at hd
    exact hd.2
  · intro a ha
    exact ((deleteDocumentCascade_analyses_mem db did a).1 ha).2

/-- Concrete two-user store used by witness theorems. -/
def sampleDB : DB :=
  { users :=
      [ { id := 1, email := "a", full_name := "A", is_active := true,
          documents_processed := 1, api_calls_count := 1 },
        { id := 2, email := "b", full_name := "B", is_active := true,
          documents_processed := 1, api_calls_count := 1 } ]
    documents :=
      [ { id := 10, user_id := 1, filename := "f1", file_size := 5,
          mime_type := "text/plain", extracted_text := some "x",
          page_count := none, word_count := some 1, status := "uploaded",
          error_message := none, created_at := 0, updated_at := 0 },
        { id := 20, user_id := 2, filename := "f2", file_size := 5,
          mime_type := "text/plain", extracted_text := some "y",
          page_count := none, word_count := some 1, status := "uploaded",
          error_message := none, created_at := 0, updated_at := 0 } ]
    analyses :=
      [ { id := 100, user_id := 1, document_id := 10,
          analysis_type := "risk_assessment", model_used := "gemini-pro",
          summary := some "s", confidence_score := some 1,
          status := "completed", user_rating := none, user_feedback := none,
          created_at := 0, updated_at := 0, completed_at := some 0 },
        { id := 200, user_id := 2, document_id := 20,
          analysis_type := "risk_assessment", model_used := "gemini-pro",
          summary := some "t", confidence_score := some 1,
          status := "completed", user_rating := none, user_feedback := none,
          created_at := 0, updated_at := 0, completed_at := some 0 } ] }

/-! ## Status sets, rating CHECK and the updated_at trigger -/

/-- Document status vocabulary from the spec data model (section 3). -/
def documentStatuses : List String := ["uploaded", "processing", "completed", "failed"]

/-- Analysis status vocabulary from the spec data model (section 3). -/
def analysisStatuses : List String := ["pending", "completed", "failed"]

/-- SQL CHECK (user_rating >= 1 AND user_rating <= 5) of init.sql line 81;
a NULL rating satisfies the constraint (SQL three-valued semantics: the
check fails only when it evaluates to false). -/
def userRatingCheck (r : Option Int) : Bool :=
  match r with
  | none => true
  | some v => decide (1 ≤ v) && decide (v ≤ 5)

/-- BEFORE UPDATE trigger update_updated_at_column applied to analyses
(init.sql lines 126-142): every UPDATE also sets updated_at to the
current timestamp. -/
def updateAnalysisRow (now : Nat) (f : AnalysisRow → AnalysisRow)
    (row : AnalysisRow) : AnalysisRow :=
  let row2 := f row
  { row2 with updated_at := now }

/-- Modelled from the spec: the feedback endpoint (POST /analysis/id/feedback,
backend handler absent from the snapshot) writes the user rating and
feedback columns of one analyses row; the write goes through the SQL
UPDATE path, so the rating CHECK applies and the updated_at trigger
fires. Returns none when the CHECK rejects the statement. -/
def submitFeedbackRow (now : Nat) (rating : Option Int) (fb : Option String)
    (row : AnalysisRow) : Option AnalysisRow :=
  if userRatingCheck rating then
    some (updateAnalysisRow now
      (fun x => { x with user_rating := rating, user_feedback := fb }) row)
  else none

/-- Equality of two analyses rows on every column except user_rating and
user_feedback. -/
def agreesExceptFeedback (r1 r2 : AnalysisRow) : Prop :=
  r1.id = r2.id ∧ r1.user_id = r2.user_id ∧ r1.document_id = r2.document_id ∧
  r1.analysis_type = r2.analysis_type ∧ r1.model_used = r2.model_used ∧
  r1.summary = r2.summary ∧ r1.confidence_score = r2.confidence_score ∧
  r1.status = r2.status ∧ r1.created_at = r2.created_at ∧
  r1.updated_at = r2.updated_at ∧ r1.completed_at = r2.completed_at

/-- Equality of two analyses rows on every column except user_rating,
user_feedback and the trigger-maintained updated_at. -/
def agreesExceptFeedbackUpdated (r1 r2 : AnalysisRow) : Prop :=
  r1.id = r2.id ∧ r1.user_id = r2.user_id ∧ r1.document_id = r2.document_id ∧
  r1.analysis_type = r2.analysis_type ∧ r1.model_used = r2.model_used ∧
  r1.summary = r2.summary ∧ r1.confidence_score = r2.confidence_score ∧
  r1.status = r2.status ∧ r1.created_at = r2.created_at ∧
  r1.completed_at = r2.completed_at

instance (r1 r2 : AnalysisRow) : Decidable (agreesExceptFeedback r1 r2) := by
  unfold agreesExceptFeedback; infer_instance

instance (r1 r2 : AnalysisRow) : Decidable (agreesExceptFeedbackUpdated r1 r2) := by
  unfold agreesExceptFeedbackUpdated; infer_instance

/-! ## Store operations reachable from the HTTP surface -/

/-- Operations that write the analyses table, as exposed by the HTTP
surface: an INSERT that omits status (schema DEFAULT applies), the
orchestrator persisting a completed or failed result (modelled from the
spec, section 4.2 step 5), feedback submission, and the cascading
deletes. -/
inductive DBOp where
  | insertAnalysisPending (row : AnalysisRow)
  | persistAnalysis (row : AnalysisRow) (ok : Bool)
  | feedback (now aid : Nat) (rating : Option Int) (fb : Option String)
  | delUser (uid : Nat)
  | delDocument (did : Nat)

/-- One store transition.  INSERTs and UPDATEs violating the rating CHECK
are rejected whole, leaving the store unchanged; the persistAnalysis
branch is modelled from the spec (orchestrator writes a row with status
completed, or failed with the error recorded). -/
def stepDB (db : DB) (op : DBOp) : DB :=
  match op with
  | .insertAnalysisPending row =>
      if userRatingCheck row.user_rating then
        { db with analyses :=
            db.analyses ++ [{ row with status := analysesStatusDefault }] }
      else db
  | .persistAnalysis row ok =>
      if userRatingCheck row.user_rating then
        { db with analyses :=
            db.analyses ++ [{ row with status := if ok then "completed" else "failed" }] }
      else db
  | .feedback now aid rating fb =>
      if userRatingCheck rating then
        { db with analyses := db.analyses.map (fun r =>
            if r.id = aid then
              updateAnalysisRow now
                (fun x => { x with user_rating := rating, user_feedback := fb }) r
            else r) }
      else db
  | .delUser uid => deleteUserCascade db uid
  | .delDocument did => deleteDocumentCascade db did

/-- Run a sequence of store operations. -/
def runDB (db : DB) (ops : List DBOp) : DB :=
  ops.foldl stepDB db

/-- Every analyses row satisfies the rating CHECK. -/
def ratingInv (db : DB) : Prop :=
  ∀ a ∈ db.analyses, userRatingCheck a.user_rating = true

/-- Every analyses row's status is in the spec vocabulary. -/
def analysisStatusInv (db : DB) : Prop :=
  ∀ a ∈ db.analyses, a.status ∈ analysisStatuses

instance (db : DB) : Decidable (ratingInv db) := by
  unfold ratingInv; infer_instance

instance (db : DB) : Decidable (analysisStatusInv db) := by
  unfold analysisStatusInv; infer_instance

theorem stepDB_rating_preserved (db : DB) (op : DBOp) (h : ratingInv db) :
    ratingInv (stepDB db op) := by
  cases op with
  | insertAnalysisPending row =>
      by_cases hc : userRatingCheck row.user_rating
      · intro a ha
        simp only [stepDB, hc, if_pos, List.mem_append, List.mem_singleton] at ha
        rcases ha with ha | ha
        · exact h a ha
        · subst ha; exact hc
      · simpa [stepDB, hc] using h
  | persistAnalysis row ok =>
      by_cases hc : userRatingCheck row.user_rating
      · intro a ha
        simp only [stepDB, hc, if_pos, List.mem_append, List.mem_singleton] at ha
        rcases ha with ha | ha
        · exact h a ha
        · subst ha; exact hc
      · simpa [stepDB, hc] using h
  | feedback now aid rating fb =>
      by_cases hc : userRatingCheck rating
      · intro a ha
        simp only [stepDB, hc, if_pos, List.mem_map] at ha
        obtain ⟨r, hr, hra⟩ := ha
        by_cases hid : r.id = aid
        · simp only [hid, if_pos] at hra
          subst hra
          simpa [updateAnalysisRow] using hc
        · simp only [hid, if_neg, not_false_iff] at hra
          subst hra
          exact h r hr
      · simpa [stepDB, hc] using h
  | delUser uid =>
      intro a ha
      exact h a ((deleteUserCascade_analyses_mem db uid a).1 ha).1
  | delDocument did =>
      intro a ha
      exact h a ((deleteDocumentCascade_analyses_mem db did a).1 ha).1

theorem stepDB_status_preserved (db : DB) (op : DBOp) (h : analysisStatusInv db) :
    analysisStatusInv (stepDB db op) := by
  cases op with
  | insertAnalysisPending row =>
      by_cases hc : userRatingCheck row.user_rating
      · intro a ha
        simp only [stepDB, hc, if_pos, List.mem_append, List.mem_singleton] at ha
        rcases ha with ha | ha
        · exact h a ha
        · subst ha; simp [analysesStatusDefault, analysisStatuses]
      · simpa [stepDB, hc] using h
  | persistAnalysis row ok =>
      by_cases hc : userRatingCheck row.user_rating
      · intro a ha
        simp only [stepDB, hc, if_pos, List.mem_append, List.mem_singleton] at ha
        rcases ha with ha | ha
        · exact h a ha
        · subst ha
          cases ok <;> simp [analysisStatuses]
      · simpa [stepDB, hc] using h
  | feedback now aid rating fb =>
      by_cases hc : userRatingCheck rating
      · intro a ha
        simp only [stepDB, hc, if_pos, List.mem_map] at ha
        obtain ⟨r, hr, hra⟩ := ha
        by_cases hid : r.id = aid
        · simp only [hid, if_pos] at hra
          subst hra
          simpa [updateAnalysisRow] using h r hr
        · simp only [hid, if_neg, not_false_iff] at hra
          subst hra
          exact h r hr
      · simpa [stepDB, hc] using h
  | delUser uid =>
      intro a ha
      exact h a ((deleteUserCascade_analyses_mem db uid a).1 ha).1
  | delDocument did =>
      intro a ha
      exact h a ((deleteDocumentCascade_analyses_mem db did a).1 ha).1

theorem runDB_rating_preserved (ops : List DBOp) (db : DB) (h : ratingInv db) :
    ratingInv (runDB db ops) := by
  induction ops generalizing db with
  | nil => exact h
  | cons op rest ih => exact ih (stepDB db op) (stepDB_rating_preserved db op h)

theorem runDB_status_preserved (ops : List DBOp) (db : DB) (h : analysisStatusInv db) :
    analysisStatusInv (runDB db ops) := by
  induction ops generalizing db with
  | nil => exact h
  | cons op rest ih => exact ih (stepDB db op) (stepDB_status_preserved db op h)

/-! ## Document lifecycle -/

/-- Modelled from the spec: the document lifecycle events (section 3,
Lifecycles) — the extraction step and the orchestrator move a document
between processing, completed and failed; the backend handlers are
absent from the snapshot. -/
inductive DocEvent where
  | startProcessing
  | finishProcessing
  | failProcessing

/-- Modelled from the spec: the status written by each lifecycle event;
the previous status does not influence it. -/
def docStatusStep (_prev : String) (e : DocEvent) : String :=
  match e with
  | .startProcessing => "processing"
  | .finishProcessing => "completed"
  | .failProcessing => "failed"

/-- Modelled from the spec: POST /documents/upload creates one documents
row; the INSERT omits status, so the schema DEFAULT of init.sql line 39
applies. -/
def insertDocumentUpload (db : DB) (row : DocumentRow) : DB :=
  { db with documents :=
      db.documents ++ [{ row with status := documentsStatusDefault }] }

theorem docStatusStep_mem (s : String) (e : DocEvent) :
    docStatusStep s e ∈ documentStatuses := by
  cases e <;> simp [docStatusStep, documentStatuses]

theorem foldl_docStatusStep_mem (events : List DocEvent) (s : String)
    (h : s ∈ documentStatuses) :
    events.foldl docStatusStep s ∈ documentStatuses := by
  induction events generalizing s with
  | nil => exact h
  | cons e rest ih => exact ih (docStatusStep s e) (docStatusStep_mem s e)

/-- C4: a freshly uploaded documents row has status uploaded (the schema
default), and along any sequence of lifecycle events the status stays in
the four-value vocabulary. -/
theorem document_status_vocabulary (db : DB) (row : DocumentRow)
    (events : List DocEvent) :
    documentsStatusDefault = "uploaded" ∧
    (∀ d ∈ (insertDocumentUpload db row).documents,
        d ∈ db.documents ∨ d.status = "uploaded") ∧
    events.foldl docStatusStep documentsStatusDefault ∈ documentStatuses := by
  refine ⟨rfl, ?_, ?_⟩
  · intro d hd
    simp only [insertDocumentUpload, List.mem_append, List.mem_singleton] at hd
    rcases hd with hd | hd
    · exact Or.inl hd
    · subst hd; exact Or.inr rfl
  · exact foldl_docStatusStep_mem events documentsStatusDefault (by
      simp [documentsStatusDefault, documentStatuses])

/-- C4 witness: the vocabulary theorem at a concrete upload and a concrete
event sequence ending in a failure. -/
theorem document_status_vocabulary_witness :
    documentsStatusDefault = "uploaded" ∧
    (∀ d ∈ (insertDocumentUpload sampleDB
        { id := 30, user_id := 1, filename := "f3", file_size := 1,
          mime_type := "text/plain", extracted_text := none,
          page_count := none, word_count := none, status := "x",
          error_message := none, created_at := 0, updated_at := 0 }).documents,
        d ∈ sampleDB.documents ∨ d.status = "uploaded") ∧
    [DocEvent.startProcessing, DocEvent.failProcessing].foldl docStatusStep
      documentsStatusDefault ∈ documentStatuses :=
  document_status_vocabulary sampleDB
    { id := 30, user_id := 1, filename := "f3", file_size := 1,
      mime_type := "text/plain", extracted_text := none,
      page_count := none, word_count := none, status := "x",
      error_message := none, created_at := 0, updated_at := 0 }
    [DocEvent.startProcessing, DocEvent.failProcessing]

/-! ## Analysis lifecycle: C5 and C9 -/

/-- Completed analyses row used to exhibit the updated_at trigger effect. -/
def completedRow : AnalysisRow :=
  { id := 100, user_id := 1, document_id := 10, analysis_type := "summary",
    model_used := "gemini-pro", summary := some "s", confidence_score := some 1,
    status := "completed", user_rating := none, user_feedback := none,
    created_at := 0, updated_at := 0, completed_at := some 0 }

/-- Result of submitting feedback on completedRow at timestamp 1. -/
def completedRowAfterFeedback : AnalysisRow :=
  (submitFeedbackRow 1 (some 5) (some "ok") completedRow).getD completedRow

/-- C5 counterexample: feedback submission on a completed analyses row also
rewrites the updated_at column, because the BEFORE UPDATE trigger of
init.sql fires on every UPDATE; so the row does not agree with its old
value on all columns outside user_rating and user_feedback. -/
theorem analysis_completed_mutation_cex :
    completedRow.status = "completed" ∧
    submitFeedbackRow 1 (some 5) (some "ok") completedRow =
      some completedRowAfterFeedback ∧
    ¬ agreesExceptFeedback completedRow completedRowAfterFeedback := by
  decide

/-- C5 amended: a fresh analyses INSERT that omits status gets the schema
default pending; along any operation sequence every analyses row's
status stays in the three-value vocabulary; and a feedback UPDATE on a
completed row leaves it completed and changes nothing outside
user_rating, user_feedback and the trigger-maintained updated_at. -/
theorem analysis_row_lifecycle (db : DB) (row r2 : AnalysisRow)
    (now : Nat) (rating : Option Int) (fb : Option String) (ops : List DBOp)
    (hinv : analysisStatusInv db)
    (hc : row.status = "completed")
    (hfb : submitFeedbackRow now rating fb row = some r2) :
    analysesStatusDefault = "pending" ∧
    (∀ a ∈ (stepDB db (.insertAnalysisPending row)).analyses,
        a ∈ db.analyses ∨ a.status = "pending") ∧
    analysisStatusInv (runDB db ops) ∧
    r2.status = "completed" ∧
    agreesExceptFeedbackUpdated row r2 := by
  refine ⟨rfl, ?_, runDB_status_preserved ops db hinv, ?_, ?_⟩
  · intro a ha
    by_cases hck : userRatingCheck row.user_rating
    · simp only [stepDB, hck, if_pos, List.mem_append, List.mem_singleton] at ha
      rcases ha with ha | ha
      · exact Or.inl ha
      · subst ha; exact Or.inr rfl
    · simp only [stepDB, hck, if_neg, Bool.false_eq_true, not_false_iff] at ha
      exact Or.inl ha
  · by_cases hck : userRatingCheck rating
    · simp only [submitFeedbackRow, hck, if_pos, Option.some_inj] at hfb
      subst hfb
      simpa [updateAnalysisRow] using hc
    · simp [submitFeedbackRow, hck] at hfb
  · by_cases hck : userRatingCheck rating
    · simp only [submitFeedbackRow, hck, if_pos, Option.some_inj] at hfb
      subst hfb
      simp [updateAnalysisRow, agreesExceptFeedbackUpdated]
    · simp [submitFeedbackRow, hck] at hfb

/-- C5 witness: the amended lifecycle theorem applied to the concrete store
and the concrete completed row. -/
theorem analysis_row_lifecycle_witness :
    analysesStatusDefault = "pending" ∧
    (∀ a ∈ (stepDB sampleDB (.insertAnalysisPending completedRow)).analyses,
        a ∈ sampleDB.analyses ∨ a.status = "pending") ∧
    analysisStatusInv (runDB sampleDB []) ∧
    completedRowAfterFeedback.status = "completed" ∧
    agreesExceptFeedbackUpdated completedRow completedRowAfterFeedback :=
  analysis_row_lifecycle sampleDB completedRow completedRowAfterFeedback
    1 (some 5) (some "ok") [] (by decide) (by decide) (by decide)

/-- C9: every analyses row reachable through the checked store operations
has user_rating NULL or an integer from 1 to 5, and an INSERT or UPDATE
carrying a rating that fails the CHECK is rejected whole, leaving the
store unchanged. -/
theorem user_rating_check_enforced (db : DB) (ops : List DBOp)
    (now aid : Nat) (rating : Option Int) (fb : Option String)
    (row : AnalysisRow) (hinv : ratingInv db) :
    (∀ a ∈ (runDB db ops).analyses, a.user_rating = none ∨
      ∃ v, a.user_rating = some v ∧ 1 ≤ v ∧ v ≤ 5) ∧
    (userRatingCheck rating = false →
      stepDB db (.feedback now aid rating fb) = db) ∧
    (userRatingCheck row.user_rating = false →
      stepDB db (.insertAnalysisPending row) = db) := by
  refine ⟨?_, ?_, ?_⟩
  · intro a ha
    have h := runDB_rating_preserved ops db hinv a ha
    cases hr : a.user_rating with
    | none => exact Or.inl rfl
    | some v =>
        refine Or.inr ⟨v, rfl, ?_⟩
        rw [hr] at h
        simpa [userRatingCheck] using h
  · intro hre
    simp [stepDB, hre]
  · intro hre
    simp [stepDB, hre]

/-- C9 witness: the CHECK theorem at the concrete store, an out-of-range
feedback rating of 6 and an out-of-range inserted rating of 0. -/
theorem user_rating_check_enforced_witness :
    (∀ a ∈ (runDB sampleDB []).analyses, a.user_rating = none ∨
      ∃ v, a.user_rating = some v ∧ 1 ≤ v ∧ v ≤ 5) ∧
    (userRatingCheck (some 6) = false →
      stepDB sampleDB (.feedback 1 100 (some 6) none) = sampleDB) ∧
    (userRatingCheck ({ completedRow with user_rating := some 0 } :
        AnalysisRow).user_rating = false →
      stepDB sampleDB
        (.insertAnalysisPending { completedRow with user_rating := some 0 }) =
        sampleDB) :=
  user_rating_check_enforced sampleDB [] 1 100 (some 6) none
    { completedRow with user_rating := some 0 } (by decide)

/-- C1 witness: the cascade theorem applied to the concrete store. -/
theorem cascade_delete_no_orphans_sample :
    refIntegrity (deleteUserCascade sampleDB 1) ∧
    (∀ d ∈ (deleteUserCascade sampleDB 1).documents, d.user_id ≠ 1) ∧
    (∀ a ∈ (deleteUserCascade sampleDB 1).analyses, a.user_id ≠ 1 ∧
      ∀ d ∈ sampleDB.documents, d.user_id = 1 → a.document_id ≠ d.id) ∧
    refIntegrity (deleteDocumentCascade sampleDB 10) ∧
    (∀ d2 ∈ (deleteDocumentCascade sampleDB 10).documents, d2.id ≠ 10) ∧
    (∀ a ∈ (deleteDocumentCascade sampleDB 10).analyses, a.document_id ≠ 10) :=
  cascade_delete_no_orphans sampleDB 1 10 (by decide)

/-! ## Analysis orchestrator, modelled from the spec (backend absent) -/

/-- Modelled from the spec: the structured fields the orchestrator parses
out of the model's JSON reply (section 4.2 step 4: summary, key points,
risk list with severities, clause list, confidence score). -/
structure ParsedModelReply where
  summary : String
  key_points : List String
  risk_assessment : List (String × String)
  clauses : List String
  confidence_score : Int
  deriving Repr, DecidableEq

/-- Modelled from the spec: outcome of the bounded external model call —
a reply that parses against the schema, a reply that does not parse or
misses required fields, or an unreachable/timed-out service. -/
inductive ModelOutcome where
  | reply (p : ParsedModelReply)
  | malformed (raw : String)
  | unavailable (msg : String)
  deriving Repr, DecidableEq

/-- Modelled from the spec: an Analysis record as the orchestrator
persists it — linked to the document and the requesting user, with the
parsed result on success or the error recorded on failure. -/
structure SpecAnalysis where
  document_id : Nat
  user_id : Nat
  analysis_type : String
  status : String
  result : Option ParsedModelReply
  error_message : Option String
  deriving Repr, DecidableEq

/-- Modelled from the spec: HTTP-level reply of POST /analysis/analyze.
The notFound branch carries no document or analysis data. -/
inductive AnalyzeResponse where
  | notFound
  | result (code : Nat) (a : SpecAnalysis)
  deriving Repr, DecidableEq

/-- Modelled from the spec: orchestrator step 1 — load the document,
yielding nothing when it is absent or not owned by the caller. -/
def loadOwnedDocument (db : DB) (caller did : Nat) : Option DocumentRow :=
  match db.documents.find? (fun d => d.id == did) with
  | none => none
  | some d => if d.user_id = caller then some d else none

/-- Modelled from the spec: the analyze call (section 4.2).  It loads the
owned document (404 otherwise), invokes the model, and persists exactly
one Analysis record: status completed with the parsed result, or failed
with the error recorded.  A malformed model reply becomes a failed
record behind a non-5xx response (section 7); an unavailable model is
surfaced as 502 while the failed record is still persisted (section 8). -/
def analyzeCall (db : DB) (store : List SpecAnalysis) (caller did : Nat)
    (atype : String) (outcome : ModelOutcome) :
    AnalyzeResponse × List SpecAnalysis :=
  match loadOwnedDocument db caller did with
  | none => (.notFound, store)
  | some _ =>
      match outcome with
      | .reply p =>
          let a : SpecAnalysis :=
            { document_id := did, user_id := caller, analysis_type := atype,
              status := "completed", result := some p, error_message := none }
          (.result 200 a, store ++ [a])
      | .malformed raw =>
          let a : SpecAnalysis :=
            { document_id := did, user_id := caller, analysis_type := atype,
              status := "failed", result := none,
              error_message := some ("malformed model response: " ++ raw) }
          (.result 200 a, store ++ [a])
      | .unavailable msg =>
          let a : SpecAnalysis :=
            { document_id := did, user_id := caller, analysis_type := atype,
              status := "failed", result := none, error_message := some msg }
          (.result 502 a, store ++ [a])

theorem loadOwnedDocument_eq_none (db : DB) (caller did : Nat)
    (h : ∀ d ∈ db.documents, d.id = did → d.user_id ≠ caller) :
    loadOwnedDocument db caller did = none := by
  unfold loadOwnedDocument
  cases hf : db.documents.find? (fun d => d.id == did) with
  | none => rfl
  | some d =>
      have hmem : d ∈ db.documents := List.mem_of_find?_eq_some hf
      have hid : d.id = did := by
        have := List.find?_some hf
        simpa using this
      simp [h d hmem hid]

/-- C2: when the requested document is absent or owned by another user,
the analyze call answers notFound, persists nothing, and the response is
identical between the absent-document and foreign-owner situations — so
no data leaks and existence is not distinguishable across owners. -/
theorem analyze_not_found_no_leak (db : DB) (store : List SpecAnalysis)
    (caller did : Nat) (atype : String) (o : ModelOutcome)
    (h : ∀ d ∈ db.documents, d.id = did → d.user_id ≠ caller) :
    (analyzeCall db store caller did atype o).1 = AnalyzeResponse.notFound ∧
    (analyzeCall db store caller did atype o).2 = store ∧
    (∀ (db2 : DB) (store2 : List SpecAnalysis) (caller2 did2 : Nat)
        (atype2 : String) (o2 : ModelOutcome),
      (∀ d ∈ db2.documents, d.id = did2 → d.user_id ≠ caller2) →
      (analyzeCall db store caller did atype o).1 =
        (analyzeCall db2 store2 caller2 did2 atype2 o2).1) := by
  have hn := loadOwnedDocument_eq_none db caller did h
  refine ⟨?_, ?_, ?_⟩
  · simp [analyzeCall, hn]
  · simp [analyzeCall, hn]
  · intro db2 store2 caller2 did2 atype2 o2 h2
    have hn2 := loadOwnedDocument_eq_none db2 caller2 did2 h2
    simp [analyzeCall, hn, hn2]

/-- C2 witness: user 2 asking for document 10 (owned by user 1) gets the
same notFound as anybody asking for the nonexistent document 99. -/
theorem analyze_not_found_no_leak_witness :
    (analyzeCall sampleDB [] 2 10 "summary" (.malformed "x")).1 =
      AnalyzeResponse.notFound ∧
    (analyzeCall sampleDB [] 2 10 "summary" (.malformed "x")).2 = [] ∧
    (∀ (db2 : DB) (store2 : List SpecAnalysis) (caller2 did2 : Nat)
        (atype2 : String) (o2 : ModelOutcome),
      (∀ d ∈ db2.documents, d.id = did2 → d.user_id ≠ caller2) →
      (analyzeCall sampleDB [] 2 10 "summary" (.malformed "x")).1 =
        (analyzeCall db2 store2 caller2 did2 atype2 o2).1) :=
  analyze_not_found_no_leak sampleDB [] 2 10 "summary" (.malformed "x")
    (by decide)

/-- C3: an analyze call that reaches the model persists exactly one new
Analysis record, linked to the document and the caller; it is completed
with the parsed result on success and failed with the error recorded on
a failed or malformed model reply; and a malformed reply is answered
with a non-5xx response carrying the failed record, never an unhandled
failure. -/
theorem analyze_persists_exactly_one_row (db : DB) (store : List SpecAnalysis)
    (caller did : Nat) (atype : String) (outcome : ModelOutcome)
    (doc : DocumentRow) (hdoc : loadOwnedDocument db caller did = some doc) :
    (analyzeCall db store caller did atype outcome).2.length =
      store.length + 1 ∧
    (∃ a, (analyzeCall db store caller did atype outcome).2 = store ++ [a] ∧
      a.document_id = did ∧ a.user_id = caller ∧ a.analysis_type = atype ∧
      (match outcome with
       | .reply p => a.status = "completed" ∧ a.result = some p ∧
           a.error_message = none
       | .malformed raw => a.status = "failed" ∧
           a.error_message = some ("malformed model response: " ++ raw)
       | .unavailable msg => a.status = "failed" ∧
           a.error_message = some msg) ∧
      (∀ raw, outcome = .malformed raw →
        (analyzeCall db store caller did atype outcome).1 =
          AnalyzeResponse.result 200 a)) := by
  cases outcome with
  | reply p =>
      refine ⟨by simp [analyzeCall, hdoc], ?_⟩
      refine ⟨{ document_id := did, user_id := caller, analysis_type := atype,
                status := "completed", result := some p,
                error_message := none },
        by simp [analyzeCall, hdoc], rfl, rfl, rfl, ⟨rfl, rfl, rfl⟩, ?_⟩
      intro raw hraw; cases hraw
  | malformed raw0 =>
      refine ⟨by simp [analyzeCall, hdoc], ?_⟩
      refine ⟨{ document_id := did, user_id := caller, analysis_type := atype,
                status := "failed", result := none,
                error_message := some ("malformed model response: " ++ raw0) },
        by simp [analyzeCall, hdoc], rfl, rfl, rfl, ⟨rfl, rfl⟩, ?_⟩
      intro raw hraw
      simp [analyzeCall, hdoc]
  | unavailable msg =>
      refine ⟨by simp [analyzeCall, hdoc], ?_⟩
      refine ⟨{ document_id := did, user_id := caller, analysis_type := atype,
                status := "failed", result := none,
                error_message := some msg },
        by simp [analyzeCall, hdoc], rfl, rfl, rfl, ⟨rfl, rfl⟩, ?_⟩
      intro raw hraw; cases hraw

/-- C3 witness: the persistence theorem at the concrete store, user 1
analysing their document 10 against a malformed model reply. -/
theorem analyze_persists_exactly_one_row_witness :
    (analyzeCall sampleDB [] 1 10 "summary" (.malformed "oops")).2.length =
      ([] : List SpecAnalysis).length + 1 ∧
    (∃ a, (analyzeCall sampleDB [] 1 10 "summary" (.malformed "oops")).2 =
        ([] : List SpecAnalysis) ++ [a] ∧
      a.document_id = 10 ∧ a.user_id = 1 ∧ a.analysis_type = "summary" ∧
      (match ModelOutcome.malformed "oops" with
       | .reply p => a.status = "completed" ∧ a.result = some p ∧
           a.error_message = none
       | .malformed raw => a.status = "failed" ∧
           a.error_message = some ("malformed model response: " ++ raw)
       | .unavailable msg => a.status = "failed" ∧
           a.error_message = some msg) ∧
      (∀ raw, ModelOutcome.malformed "oops" = .malformed raw →
        (analyzeCall sampleDB [] 1 10 "summary" (.malformed "oops")).1 =
          AnalyzeResponse.result 200 a)) :=
  analyze_persists_exactly_one_row sampleDB [] 1 10 "summary"
    (.malformed "oops")
    ((sampleDB.documents.get ⟨0, by decide⟩)) (by decide)

/-! ## Text extractor, modelled from the spec (backend absent) -/

/-- Modelled from the spec: extraction failure modes (section 4.1). -/
inductive ExtractError where
  | unsupportedFormat
  | corruptFile
  deriving Repr, DecidableEq

/-- Plain text plus the basic statistics the extractor reports. -/
structure Extraction where
  plainText : String
  pageCount : Option Nat
  wordCount : Nat
  deriving Repr, DecidableEq

/-- Count of nonempty whitespace-separated words. -/
def wordCountOf (s : String) : Nat :=
  ((s.split (fun c => c == ' ' || c == '\n' || c == '\t')).filter
    (fun w => w ≠ "")).length

/-- Docx mime type accepted by the extractor. -/
def docxMime : String :=
  "application/vnd.openxmlformats-officedocument.wordprocessingml.document"

/-- Modelled from the spec: the text extractor (section 4.1, backend code
absent from the snapshot).  It dispatches on the declared mime type,
turns the bytes into a plain-text string, and returns the text with page
and word counts; an undeclared format fails with unsupportedFormat and
an empty binary fails with corruptFile.  It takes no state and performs
no effect. -/
def extractText (bytes : List Nat) (mime : String) :
    Except ExtractError Extraction :=
  if mime = "text/plain" then
    let text := String.mk (bytes.map Char.ofNat)
    .ok { plainText := text, pageCount := none, wordCount := wordCountOf text }
  else if mime = "application/pdf" ∨ mime = docxMime then
    if bytes = [] then .error .corruptFile
    else
      let text := String.mk (bytes.map Char.ofNat)
      .ok { plainText := text, pageCount := some 1,
            wordCount := wordCountOf text }
  else .error .unsupportedFormat

/-- Wrapper exhibiting that the extractor neither reads nor writes any
ambient state of any type. -/
def extractTextWithState {σ : Type} (st : σ) (bytes : List Nat)
    (mime : String) : σ × Except ExtractError Extraction :=
  (st, extractText bytes mime)

/-- C6: the extractor is pure and deterministic — two calls on identical
byte/mime inputs give identical results whatever the surrounding state,
the state is left untouched, and on acceptance the plain text, page
count and word count coincide. -/
theorem extractor_deterministic {σ : Type} (st1 st2 : σ)
    (b1 b2 : List Nat) (m1 m2 : String) (hb : b1 = b2) (hm : m1 = m2) :
    (extractTextWithState st1 b1 m1).2 = (extractTextWithState st2 b2 m2).2 ∧
    (extractTextWithState st1 b1 m1).1 = st1 ∧
    (extractTextWithState st2 b2 m2).1 = st2 ∧
    (∀ e1 e2, extractText b1 m1 = .ok e1 → extractText b2 m2 = .ok e2 →
      e1.plainText = e2.plainText ∧ e1.pageCount = e2.pageCount ∧
      e1.wordCount = e2.wordCount) := by
  subst hb; subst hm
  refine ⟨rfl, rfl, rfl, ?_⟩
  intro e1 e2 h1 h2
  rw [h1] at h2
  cases h2
  exact ⟨rfl, rfl, rfl⟩

/-- C6 witness: the determinism theorem at two distinct ambient states and
a concrete plain-text input. -/
theorem extractor_deterministic_witness :
    (extractTextWithState (5 : Nat) [104, 105] "text/plain").2 =
      (extractTextWithState (7 : Nat) [104, 105] "text/plain").2 ∧
    (extractTextWithState (5 : Nat) [104, 105] "text/plain").1 = 5 ∧
    (extractTextWithState (7 : Nat) [104, 105] "text/plain").1 = 7 ∧
    (∀ e1 e2, extractText [104, 105] "text/plain" = .ok e1 →
      extractText [104, 105] "text/plain" = .ok e2 →
      e1.plainText = e2.plainText ∧ e1.pageCount = e2.pageCount ∧
      e1.wordCount = e2.wordCount) :=
  extractor_deterministic 5 7 [104, 105] [104, 105]
    "text/plain" "text/plain" rfl rfl

/-! ## Shared axios client, from src/unnamed/part_002 lines 4-36 -/

/-- Browser state the interceptors read and write: the token slot of
localStorage (getItem returns null or a string) and the window
location. -/
structure BrowserState where
  token : Option String
  location : String
  deriving Repr, DecidableEq

/-- The request headers the interceptor touches. -/
structure RequestConfig where
  authorization : Option String
  deriving Repr, DecidableEq

/-- Request interceptor (part_002 lines 13-24): reads the token from
localStorage and, when it is truthy — null and the empty string are
falsy in JavaScript — sets the Authorization header to Bearer token. -/
def requestInterceptor (st : BrowserState) (config : RequestConfig) :
    RequestConfig :=
  match st.token with
  | some t =>
      if t ≠ "" then { config with authorization := some ("Bearer " ++ t) }
      else config
  | none => config

/-- Response interceptor error branch (part_002 lines 27-36): on HTTP 401
the token is removed from localStorage and the browser navigates to
/login; every other error leaves the browser state unchanged.  status
none models an error without a response object. -/
def responseErrorInterceptor (st : BrowserState) (status : Option Nat) :
    BrowserState :=
  if status = some 401 then { token := none, location := "/login" }
  else st

/-- C7 counterexample: the header is not attached exactly when a token is
present — with the empty string stored as the token, getItem returns a
present value but the JavaScript truthiness test skips the header. -/
theorem auth_header_presence_cex :
    ¬ (∀ (st : BrowserState) (cfg : RequestConfig),
        (requestInterceptor st cfg).authorization.isSome = st.token.isSome) := by
  intro h
  have h2 := h { token := some "", location := "/d" } { authorization := none }
  simp [requestInterceptor] at h2

/-- C7 amended: starting from a request without an Authorization header,
the interceptor attaches one exactly when a nonempty token is stored,
and then it is Bearer token; a 401 error clears the stored token and
navigates to /login, and every other error status leaves the browser
state — in particular the stored token — unchanged. -/
theorem api_client_interceptors (st : BrowserState) (cfg : RequestConfig)
    (status : Option Nat) (hcfg : cfg.authorization = none) :
    ((requestInterceptor st cfg).authorization.isSome ↔
      ∃ t, st.token = some t ∧ t ≠ "") ∧
    (∀ t, st.token = some t → t ≠ "" →
      (requestInterceptor st cfg).authorization = some ("Bearer " ++ t)) ∧
    responseErrorInterceptor st (some 401) =
      { token := none, location := "/login" } ∧
    (status ≠ some 401 → responseErrorInterceptor st status = st) := by
  refine ⟨?_, ?_, rfl, ?_⟩
  · constructor
    · intro hs
      cases ht : st.token with
      | none => rw [requestInterceptor, ht, hcfg] at hs; cases hs
      | some t =>
          by_cases hte : t = ""
          · rw [requestInterceptor, ht] at hs
            simp [hte, hcfg] at hs
          · exact ⟨t, rfl, hte⟩
    · rintro ⟨t, ht, hte⟩
      rw [requestInterceptor, ht]
      simp [hte]
  · intro t ht hte
    rw [requestInterceptor, ht]
    simp [hte]
  · intro hne
    simp [responseErrorInterceptor, hne]

/-- C7 witness: the amended interceptor theorem at a browser storing the
token abc and a request lacking the header, checked against a 500
error. -/
theorem api_client_interceptors_witness :
    (((requestInterceptor { token := some "abc", location := "/d" }
        { authorization := none }).authorization.isSome ↔
      ∃ t, ({ token := some "abc", location := "/d" } :
        BrowserState).token = some t ∧ t ≠ "") ∧
    (∀ t, ({ token := some "abc", location := "/d" } :
        BrowserState).token = some t → t ≠ "" →
      (requestInterceptor { token := some "abc", location := "/d" }
        { authorization := none }).authorization = some ("Bearer " ++ t)) ∧
    responseErrorInterceptor { token := some "abc", location := "/d" }
      (some 401) = { token := none, location := "/login" } ∧
    (some 500 ≠ some 401 →
      responseErrorInterceptor { token := some "abc", location := "/d" }
        (some 500) = { token := some "abc", location := "/d" })) :=
  api_client_interceptors { token := some "abc", location := "/d" }
    { authorization := none } (some 500) rfl

/-! ## Documents Redux slice, from the documentSlice source
(src/frontend/src/components/PrivateRoute.tsx lines 215-374) -/

/-- Fields of a Document item as the frontend api module declares it;
only the ones the slice inspects are kept. -/
structure DocumentItem where
  id : String
  filename : String
  status : String
  deriving Repr, DecidableEq

/-- Payload of fetchDocuments.fulfilled (a DocumentList). -/
structure DocumentListPayload where
  documents : List DocumentItem
  total : Nat
  skip : Nat
  limit : Nat
  deriving Repr, DecidableEq

/-- State of the documents slice. -/
structure DocumentState where
  documents : List DocumentItem
  currentDocument : Option DocumentItem
  isLoading : Bool
  uploadProgress : Nat
  error : Option String
  total : Nat
  skip : Nat
  limit : Nat
  deriving Repr, DecidableEq

/-- The slice's initialState (lines 229-238). -/
def documentInitState : DocumentState :=
  { documents := [], currentDocument := none, isLoading := false,
    uploadProgress := 0, error := none, total := 0, skip := 0, limit := 20 }

/-- Actions the documents slice reduces: the pending / fulfilled /
rejected cases of its four thunks and its three synchronous reducers. -/
inductive DocumentAction where
  | uploadPending
  | uploadFulfilled (doc : DocumentItem)
  | uploadRejected (msg : String)
  | fetchDocumentsPending
  | fetchDocumentsFulfilled (payload : DocumentListPayload)
  | fetchDocumentsRejected (msg : String)
  | fetchDocumentPending
  | fetchDocumentFulfilled (doc : DocumentItem)
  | fetchDocumentRejected (msg : String)
  | deletePending
  | deleteFulfilled (did : String)
  | deleteRejected (msg : String)
  | clearError
  | setUploadProgress (p : Nat)
  | clearCurrentDocument

/-- The documents slice reducer, case for case from the extraReducers
builder (lines 303-370) and the reducers block (lines 292-302);
unshift prepends. -/
def documentReducer (s : DocumentState) (a : DocumentAction) : DocumentState :=
  match a with
  | .uploadPending =>
      { s with isLoading := true, error := none, uploadProgress := 0 }
  | .uploadFulfilled doc =>
      { s with isLoading := false, documents := doc :: s.documents,
               uploadProgress := 100, error := none }
  | .uploadRejected m =>
      { s with isLoading := false, error := some m, uploadProgress := 0 }
  | .fetchDocumentsPending =>
      { s with isLoading := true, error := none }
  | .fetchDocumentsFulfilled p =>
      { s with isLoading := false, documents := p.documents,
               total := p.total, skip := p.skip, limit := p.limit,
               error := none }
  | .fetchDocumentsRejected m =>
      { s with isLoading := false, error := some m }
  | .fetchDocumentPending =>
      { s with isLoading := true, error := none }
  | .fetchDocumentFulfilled d =>
      { s with isLoading := false, currentDocument := some d, error := none }
  | .fetchDocumentRejected m =>
      { s with isLoading := false, error := some m }
  | .deletePending =>
      { s with isLoading := true, error := none }
  | .deleteFulfilled did =>
      { s with isLoading := false,
               documents := s.documents.filter (fun d => d.id ≠ did),
               currentDocument :=
                 match s.currentDocument with
                 | some c => if c.id = did then none else some c
                 | none => none,
               error := none }
  | .deleteRejected m =>
      { s with isLoading := false, error := some m }
  | .clearError => { s with error := none }
  | .setUploadProgress p => { s with uploadProgress := p }
  | .clearCurrentDocument => { s with currentDocument := none }

/-- C8: reducing deleteDocument.fulfilled with payload did, from any prior
state, keeps exactly the entries whose id differs from did — same
membership, same per-entry multiplicity, same relative order; nulls
currentDocument exactly when its id was did and leaves it untouched
otherwise (including when it was already null); and leaves isLoading
false and error null afterwards. -/
theorem delete_fulfilled_effect (s : DocumentState) (did : String) :
    (∀ d, d ∈ (documentReducer s (.deleteFulfilled did)).documents ↔
      d ∈ s.documents ∧ d.id ≠ did) ∧
    (∀ d, (documentReducer s (.deleteFulfilled did)).documents.count d =
      if d.id = did then 0 else s.documents.count d) ∧
    (documentReducer s (.deleteFulfilled did)).documents.Sublist s.documents ∧
    (∀ c, s.currentDocument = some c →
      (documentReducer s (.deleteFulfilled did)).currentDocument =
        (if c.id = did then none else some c)) ∧
    (s.currentDocument = none →
      (documentReducer s (.deleteFulfilled did)).currentDocument = none) ∧
    (documentReducer s (.deleteFulfilled did)).isLoading = false ∧
    (documentReducer s (.deleteFulfilled did)).error = none ∧
    (documentReducer s (.deleteFulfilled did)).uploadProgress =
      s.uploadProgress ∧
    (documentReducer s (.deleteFulfilled did)).total = s.total := by
  refine ⟨?_, ?_, ?_, ?_, ?_, rfl, rfl, rfl, rfl⟩
  · intro d
    simp [documentReducer, List.mem_filter]
  · intro d
    by_cases h : d.id = did
    · rw [if_pos h, List.count_eq_zero]
      intro hmem
      rw [documentReducer] at hmem
      simp only [List.mem_filter] at hmem
      exact absurd h (by simpa using hmem.2)
    · rw [if_neg h]
      show ((s.documents.filter (fun x => x.id ≠ did)).count d) = _
      exact List.count_filter (by simpa using h)
  · exact List.filter_sublist s.documents
  · intro c hc
    simp [documentReducer, hc]
  · intro hc
    simp [documentReducer, hc]

/-- Prior slice state used by the C8 witness: loading, with a duplicated
entry b and the to-be-deleted entry a selected. -/
def sampleDocState : DocumentState :=
  { documents := [{ id := "a", filename := "f", status := "uploaded" },
                  { id := "b", filename := "g", status := "uploaded" },
                  { id := "b", filename := "g", status := "uploaded" }],
    currentDocument := some { id := "a", filename := "f",
                              status := "uploaded" },
    isLoading := true, uploadProgress := 3, error := none,
    total := 3, skip := 0, limit := 20 }

/-- C8 witness: deleting id a from the concrete prior state with a
duplicated surviving entry. -/
theorem delete_fulfilled_effect_witness :
    (∀ d, d ∈ (documentReducer sampleDocState
        (.deleteFulfilled "a")).documents ↔
      d ∈ sampleDocState.documents ∧ d.id ≠ "a") ∧
    (∀ d, (documentReducer sampleDocState
        (.deleteFulfilled "a")).documents.count d =
      if d.id = "a" then 0 else sampleDocState.documents.count d) ∧
    (documentReducer sampleDocState
      (.deleteFulfilled "a")).documents.Sublist sampleDocState.documents ∧
    (∀ c, sampleDocState.currentDocument = some c →
      (documentReducer sampleDocState
        (.deleteFulfilled "a")).currentDocument =
        (if c.id = "a" then none else some c)) ∧
    (sampleDocState.currentDocument = none →
      (documentReducer sampleDocState
        (.deleteFulfilled "a")).currentDocument = none) ∧
    (documentReducer sampleDocState (.deleteFulfilled "a")).isLoading = false ∧
    (documentReducer sampleDocState (.deleteFulfilled "a")).error = none ∧
    (documentReducer sampleDocState (.deleteFulfilled "a")).uploadProgress =
      sampleDocState.uploadProgress ∧
    (documentReducer sampleDocState (.deleteFulfilled "a")).total =
      sampleDocState.total :=
  delete_fulfilled_effect sampleDocState "a"

/-- Loading and error never conflict: a loading state carries no error. -/
def docLoadErrInv (s : DocumentState) : Prop :=
  s.isLoading = true → s.error = none

theorem documentReducer_inv_preserved (s : DocumentState)
    (a : DocumentAction) (h : docLoadErrInv s) :
    docLoadErrInv (documentReducer s a) := by
  cases a <;>
    simp_all [documentReducer, docLoadErrInv]

/-- C10: every state the documents slice reaches from its initial state
satisfies isLoading implies no error; each of the four pending actions
leaves isLoading true and error null; and any action producing a
non-null error either kept the previous error or set isLoading false —
in particular each rejected action sets isLoading false. -/
theorem document_slice_loading_error (actions : List DocumentAction)
    (s : DocumentState) (m : String) :
    docLoadErrInv (actions.foldl documentReducer documentInitState) ∧
    (∀ a ∈ [DocumentAction.uploadPending,
            DocumentAction.fetchDocumentsPending,
            DocumentAction.fetchDocumentPending,
            DocumentAction.deletePending],
      (documentReducer s a).isLoading = true ∧
      (documentReducer s a).error = none) ∧
    (∀ a, (documentReducer s a).error ≠ none →
      (documentReducer s a).error = s.error ∨
      (documentReducer s a).isLoading = false) ∧
    (documentReducer s (.uploadRejected m)).isLoading = false ∧
    (documentReducer s (.fetchDocumentsRejected m)).isLoading = false ∧
    (documentReducer s (.fetchDocumentRejected m)).isLoading = false ∧
    (documentReducer s (.deleteRejected m)).isLoading = false := by
  refine ⟨?_, ?_, ?_, rfl, rfl, rfl, rfl⟩
  · have hrun : ∀ (acts : List DocumentAction) (t : DocumentState),
        docLoadErrInv t →
        docLoadErrInv (acts.foldl documentReducer t) := by
      intro acts
      induction acts with
      | nil => intro t ht; exact ht
      | cons a rest ih =>
          intro t ht
          exact ih (documentReducer t a)
            (documentReducer_inv_preserved t a ht)
    exact hrun actions documentInitState (by intro h; rfl)
  · intro a ha
    simp only [List.mem_cons, List.not_mem_nil, or_false] at ha
    rcases ha with rfl | rfl | rfl | rfl <;> exact ⟨rfl, rfl⟩
  · intro a
    cases a <;> simp [documentReducer]

/-- C10 witness: the invariant theorem at a concrete action trace ending
in a rejected fetch. -/
theorem document_slice_loading_error_witness :
    docLoadErrInv ([DocumentAction.fetchDocumentsPending,
        DocumentAction.fetchDocumentsRejected "boom"].foldl
        documentReducer documentInitState) ∧
    (∀ a ∈ [DocumentAction.uploadPending,
            DocumentAction.fetchDocumentsPending,
            DocumentAction.fetchDocumentPending,
            DocumentAction.deletePending],
      (documentReducer documentInitState a).isLoading = true ∧
      (documentReducer documentInitState a).error = none) ∧
    (∀ a, (documentReducer documentInitState a).error ≠ none →
      (documentReducer documentInitState a).error =
        documentInitState.error ∨
      (documentReducer documentInitState a).isLoading = false) ∧
    (documentReducer documentInitState
      (.uploadRejected "boom")).isLoading = false ∧
    (documentReducer documentInitState
      (.fetchDocumentsRejected "boom")).isLoading = false ∧
    (documentReducer documentInitState
      (.fetchDocumentRejected "boom")).isLoading = false ∧
    (documentReducer documentInitState
      (.deleteRejected "boom")).isLoading = false :=
  document_slice_loading_error
    [DocumentAction.fetchDocumentsPending,
     DocumentAction.fetchDocumentsRejected "boom"]
    documentInitState "boom"

end LegalDocAI
